import Mathlib

/-
Verification of the Captain Focus chat widget.

The embedding models the two source modules the claims are about:
  * src/services/omnidimensionApi.ts : the API client (backend URL
    resolution, sendMessage, checkHealth);
  * src/components/ChatInterface.tsx : the conversation controller
    (handleSendMessage, detectMood, voice-settings persistence).

Browser effects are made explicit: the outcome of `fetch` is an input
(`FetchResult` / `HealthFetch`), the HTTP request issued is part of the
return value, `localStorage` is a finite map from keys, and thrown
JavaScript errors are values of `JsError` carried in `Except`.
-/

namespace CaptainFocus

/-! ## String helpers: JavaScript `String.prototype.includes` -/

/-- Whether the first list is an initial segment of the second. -/
def leadsWith : List Char → List Char → Bool
  | [], _ => true
  | _ :: _, [] => false
  | a :: as, b :: bs => a = b && leadsWith as bs

/-- Whether the first list occurs contiguously inside the second. -/
def occursIn (sub : List Char) : List Char → Bool
  | [] => sub.isEmpty
  | c :: t => leadsWith sub (c :: t) || occursIn sub t

/-- JavaScript `s.includes(sub)`. -/
def strIncludes (s sub : String) : Bool :=
  occursIn sub.toList s.toList

/-- ASCII case folding; the keywords the widget matches are all ASCII,
where JavaScript toLowerCase and the regex `i` flag agree with this. -/
def asciiLower (c : Char) : Char :=
  if 65 ≤ c.toNat ∧ c.toNat ≤ 90 then Char.ofNat (c.toNat + 32) else c

/-- Lowercase every character (JavaScript `s.toLowerCase()` on ASCII). -/
def jsToLower (s : String) : String :=
  String.mk (s.toList.map asciiLower)

/-- The WhiteSpace and LineTerminator characters `String.prototype.trim`
removes. -/
def jsIsWhitespace (c : Char) : Bool :=
  c = ' ' || c = '\t' || c = '\n' || c = '\r' ||
  c.toNat = 0x0b || c.toNat = 0x0c || c.toNat = 0xa0 || c.toNat = 0x1680 ||
  (0x2000 ≤ c.toNat && c.toNat ≤ 0x200a) ||
  c.toNat = 0x2028 || c.toNat = 0x2029 || c.toNat = 0x202f ||
  c.toNat = 0x205f || c.toNat = 0x3000 || c.toNat = 0xfeff

/-- Drop the leading whitespace characters. -/
def dropLeadingWs : List Char → List Char
  | [] => []
  | c :: t => if jsIsWhitespace c then dropLeadingWs t else c :: t

/-- JavaScript `s.trim()`: strip whitespace from both ends. -/
def jsTrim (s : String) : String :=
  String.mk (dropLeadingWs (dropLeadingWs s.toList.reverse).reverse)

/-! ## Data model of the API client (src/services/omnidimensionApi.ts) -/

/-- The `role` field of a `ChatMessage` (interface ChatMessage, lines 1-4). -/
inductive Role
  | system
  | user
  | assistant
deriving DecidableEq, Repr

/-- interface ChatMessage (omnidimensionApi.ts lines 1-4). -/
structure ChatMessage where
  role : Role
  content : String
deriving DecidableEq, Repr

/-- The JSON body of a `/api/chat` reply as the client inspects it: the
optional `error` field (used on non-ok statuses) and the optional
`response` field (interface BackendChatResponse). A `some ""` field is a
present but falsy string, matching the JavaScript truthiness tests. -/
structure ChatJson where
  error : Option String
  response : Option String
deriving DecidableEq, Repr

instance {α β : Type} [DecidableEq α] [DecidableEq β] : DecidableEq (Except α β)
  | Except.error a, Except.error b =>
    if h : a = b then isTrue (by rw [h])
    else isFalse (by intro hc; cases hc; exact h rfl)
  | Except.error _, Except.ok _ => isFalse (by intro h; cases h)
  | Except.ok _, Except.error _ => isFalse (by intro h; cases h)
  | Except.ok a, Except.ok b =>
    if h : a = b then isTrue (by rw [h])
    else isFalse (by intro hc; cases hc; exact h rfl)

/-- The observable part of a fetch `Response` for `/api/chat`: the `ok`
flag, the numeric status, the status text, and the result of `.json()`
(`Except.error m` models a body whose JSON parse rejects with message
`m`). -/
structure HttpResponse where
  ok : Bool
  status : Nat
  statusText : String
  body : Except String ChatJson
deriving DecidableEq, Repr

/-- The outcome of the `fetch` call itself: either a response, or a
network-level TypeError carrying its message. -/
inductive FetchResult
  | success (resp : HttpResponse)
  | typeError (msg : String)
deriving DecidableEq, Repr

/-- A thrown JavaScript error as sendMessage can surface it: an `Error`
with a message, a `TypeError` with a message, or the error thrown by a
failed JSON parse of an ok response. Every constructor is an `instanceof
Error` with a `.message`. -/
inductive JsError
  | error (msg : String)
  | typeError (msg : String)
  | parseError (msg : String)
deriving DecidableEq, Repr

/-- The one HTTP request sendMessage can issue: `POST ${backendUrl}/api/chat`
with JSON body `{"message": message}` (lines 59-67); the `message` field
records the body's only payload. -/
structure ChatRequest where
  url : String
  method : String
  message : String
deriving DecidableEq, Repr

/-- The V8 TypeError message for reading `.role` of
`messages[messages.length - 1]` when the list is empty (line 52-53). -/
def undefinedReadRoleMsg : String :=
  "Cannot read properties of undefined (reading \x27role\x27)"

/-- The template literal `HTTP ${response.status}: ${response.statusText}`
(line 71). -/
def httpStatusMsg (resp : HttpResponse) : String :=
  "HTTP " ++ toString resp.status ++ ": " ++ resp.statusText

/-- `errorData.error || \x60HTTP ...\x60` for a non-ok response, where
`errorData` is `await response.json().catch(() => ({}))` (lines 70-71):
a parse failure yields `{}`, and an absent or empty `error` field is
falsy. -/
def httpErrorDetail (resp : HttpResponse) : String :=
  match resp.body with
  | Except.ok data =>
    match data.error with
    | some e => if e = "" then httpStatusMsg resp else e
    | none => httpStatusMsg resp
  | Except.error _ => httpStatusMsg resp

/-- How sendMessage turns the outcome of the fetch at `/api/chat` into a
resolved string or a thrown error (omnidimensionApi.ts lines 59-89): a
network TypeError propagates; a non-ok status throws the 404, 500 or
generic Error; an ok response throws on a failed JSON parse or on a falsy
`response` field and otherwise resolves with it. -/
def chatResponseOutcome (net : FetchResult) : Except JsError String :=
  match net with
  | FetchResult.typeError m => Except.error (JsError.typeError m)
  | FetchResult.success resp =>
    if resp.ok = false then
      Except.error (JsError.error (
        if resp.status = 404 then
          "Backend service not found. Please check if the server is running."
        else if resp.status = 500 then
          "Server error: " ++ httpErrorDetail resp
        else
          "Backend request failed: " ++ httpErrorDetail resp))
    else
      match resp.body with
      | Except.error m => Except.error (JsError.parseError m)
      | Except.ok data =>
        match data.response with
        | none =>
          Except.error
            (JsError.error "Invalid response from backend: missing response text")
        | some r =>
          if r = "" then
            Except.error
              (JsError.error "Invalid response from backend: missing response text")
          else
            Except.ok r

/-- The body of sendMessage's `try` block (omnidimensionApi.ts lines
50-89): read the last message, require role `user`, issue the POST, and
translate the response; returns the request issued (if any) paired with
the resolved string or the thrown error. -/
def sendMessageTry (backendUrl : String) (messages : List ChatMessage)
    (net : FetchResult) : Option ChatRequest × Except JsError String :=
  match messages.getLast? with
  | none => (none, Except.error (JsError.typeError undefinedReadRoleMsg))
  | some latestMessage =>
    if latestMessage.role ≠ Role.user then
      (none, Except.error (JsError.error "Latest message must be from user"))
    else
      (some (ChatRequest.mk (backendUrl ++ "/api/chat") "POST" latestMessage.content),
        chatResponseOutcome net)

/-- The `catch` block (lines 90-99): a TypeError whose message contains
`fetch` is rewritten into the cannot-connect Error; everything else is
rethrown unchanged. -/
def catchWrap (r : Except JsError String) : Except JsError String :=
  match r with
  | Except.error (JsError.typeError m) =>
    if strIncludes m "fetch" then
      Except.error (JsError.error
        "Cannot connect to backend server. Please ensure the backend service is running.")
    else r
  | _ => r

/-- OmnidimensionAPI.sendMessage (lines 49-100): the `try` body followed
by the `catch` block. -/
def sendMessage (backendUrl : String) (messages : List ChatMessage)
    (net : FetchResult) : Option ChatRequest × Except JsError String :=
  let r := sendMessageTry backendUrl messages net
  (r.1, catchWrap r.2)

/-- `window.location` as the constructor reads it (lines 30-40). -/
structure BrowserWindow where
  hostname : String
  protocol : String
deriving DecidableEq, Repr

/-- JavaScript `v || d` on an optional string: `undefined` and the empty
string are falsy. -/
def jsOr (v : Option String) (d : String) : String :=
  match v with
  | some s => if s = "" then d else s
  | none => d

/-- The OmnidimensionAPI constructor's backend URL resolution (lines
28-47): `window` is `none` outside a browser, and `viteBackendUrl` is
`import.meta.env.VITE_BACKEND_URL` (`none` when unset). -/
def resolveBackendUrl (window : Option BrowserWindow)
    (viteBackendUrl : Option String) : String :=
  match window with
  | some w =>
    if w.hostname = "localhost" ∨ w.hostname = "127.0.0.1" then
      "http://localhost:3001"
    else
      jsOr viteBackendUrl (w.protocol ++ "//captain-focus-backend.onrender.com")
  | none => jsOr viteBackendUrl "http://localhost:3001"

/-- The `environment` field of interface BackendHealthResponse (lines
18-22). -/
structure HealthEnvironment where
  nodeEnv : String
  nodeVersion : String
  port : Nat
deriving DecidableEq, Repr

/-- interface BackendHealthResponse (lines 13-23). -/
structure HealthJson where
  status : String
  service : String
  message : String
  timestamp : String
  environment : HealthEnvironment
deriving DecidableEq, Repr

/-- The outcome of the GET to `/api/health`: a response with its `ok`
flag, status and JSON parse result, or a network-level error. -/
inductive HealthFetch
  | success (ok : Bool) (status : Nat) (body : Except String HealthJson)
  | typeError (msg : String)
deriving DecidableEq, Repr

/-- OmnidimensionAPI.checkHealth (lines 103-127): returns null on a
non-ok status, and the catch block turns every exception (network
failure, JSON parse failure) into null as well. -/
def checkHealth (backendUrl : String) (net : HealthFetch) : Option HealthJson :=
  match net with
  | HealthFetch.typeError _ => none
  | HealthFetch.success ok _ body =>
    if ok = false then none
    else
      match body with
      | Except.error _ => none
      | Except.ok healthData => some healthData

/-- OmnidimensionAPI.getSystemPrompt (lines 141-143). -/
def getSystemPrompt : String :=
  "You are Captain Focus, a friendly AI study companion. Help students learn with enthusiasm and encouragement!"

/-! ## Conversation controller (src/components/ChatInterface.tsx) -/

/-- The `sender` field of a chat `Message` (ChatInterface.tsx line 8). -/
inductive Sender
  | user
  | captain
deriving DecidableEq, Repr

/-- The mood labels (ChatInterface.tsx line 9). -/
inductive Mood
  | tired
  | confused
  | happy
  | neutral
deriving DecidableEq, Repr

/-- interface Message (lines 5-11), without the `id` and `timestamp`
fields, which are wall-clock values no claim depends on. -/
structure Message where
  text : String
  sender : Sender
  mood : Option Mood
deriving DecidableEq, Repr

/-- The alternatives of the `tired` regex (line 172). -/
def tiredKeywords : List String :=
  ["tired", "exhausted", "sleepy", "bored", "overwhelmed"]

/-- The alternatives of the `confused` regex (line 173). -/
def confusedKeywords : List String :=
  ["confused", "don\x27t understand", "help", "stuck", "hard", "difficult"]

/-- The alternatives of the `happy` regex (line 174). -/
def happyKeywords : List String :=
  ["great", "awesome", "got it", "understand", "thanks", "good"]

/-- A case-insensitive alternation regex test `/k1|k2|.../i.test(text)`
over ASCII keywords: some keyword occurs in the lowercased text. -/
def matchesAnyKeyword (text : String) (kws : List String) : Bool :=
  kws.any fun k => strIncludes (jsToLower text) k

/-- detectMood (ChatInterface.tsx lines 171-180). -/
def detectMood (text : String) : Mood :=
  if matchesAnyKeyword text tiredKeywords then Mood.tired
  else if matchesAnyKeyword text confusedKeywords then Mood.confused
  else if matchesAnyKeyword text happyKeywords then Mood.happy
  else Mood.neutral

/-- The canned fallback text of the catch branch (line 259). -/
def fallbackResponse : String :=
  "🤖 I\x27m having trouble connecting to my AI brain right now, but I\x27m still here to help! This might be due to API configuration issues. Please check the backend logs and ensure your Omnidimension API key is properly set. ⚡"

/-- The controller state handleSendMessage reads and writes: the message
list, the input text, the typing flag and the API error banner. -/
structure ChatState where
  messages : List Message
  inputText : String
  isTyping : Bool
  apiError : Option String
deriving DecidableEq, Repr

/-- The role conversion of the history map (lines 225-228). -/
def toApiRole (s : Sender) : Role :=
  match s with
  | Sender.user => Role.user
  | Sender.captain => Role.assistant

/-- The `apiMessages` array built in handleSendMessage (lines 231-235):
the system prompt, the history from the pre-send message list, then the
current input as a user message. -/
def apiMessagesOf (s : ChatState) : List ChatMessage :=
  ChatMessage.mk Role.system getSystemPrompt ::
    ((s.messages.map fun m => ChatMessage.mk (toApiRole m.sender) m.text) ++
      [ChatMessage.mk Role.user s.inputText])

/-- What one handleSendMessage call produced: the new controller state,
the texts passed to speakText in order, and the HTTP request issued (none
when no request was made). -/
structure SendOutcome where
  state : ChatState
  spoken : List String
  request : Option ChatRequest
deriving DecidableEq, Repr

/-- The `error instanceof Error ? error.message : ...` projection of
line 256; every modelled error is an Error instance with a message. -/
def jsErrorMessage : JsError → String
  | JsError.error m => m
  | JsError.typeError m => m
  | JsError.parseError m => m

/-- handleSendMessage (ChatInterface.tsx lines 207-273). The guard
returns when the trimmed input is empty; otherwise the user message is
appended, the input cleared, typing set and the error banner reset; the
send either appends a captain reply with the mood of the user's input
and speaks it, or stores the error message, appends the fallback captain
message and speaks it. The function is total: no branch propagates an
exception. -/
def handleSendMessage (backendUrl : String) (net : FetchResult)
    (s : ChatState) : SendOutcome :=
  if jsTrim s.inputText = "" then
    SendOutcome.mk s [] none
  else
    let userMessage : Message := Message.mk s.inputText Sender.user none
    let currentInput := s.inputText
    let s1 : ChatState := ChatState.mk (s.messages ++ [userMessage]) "" true none
    let sendRes := sendMessage backendUrl (apiMessagesOf s) net
    match sendRes.2 with
    | Except.ok responseText =>
      let captainMessage : Message :=
        Message.mk responseText Sender.captain (some (detectMood currentInput))
      SendOutcome.mk
        (ChatState.mk (s1.messages ++ [captainMessage]) s1.inputText false s1.apiError)
        [responseText] sendRes.1
    | Except.error e =>
      let captainMessage : Message :=
        Message.mk fallbackResponse Sender.captain (some Mood.neutral)
      SendOutcome.mk
        (ChatState.mk (s1.messages ++ [captainMessage]) s1.inputText false
          (some (jsErrorMessage e)))
        [fallbackResponse] sendRes.1

/-! ## Voice settings persistence (ChatInterface.tsx lines 42-49, 93-96,
440-445) -/

/-- interface VoiceSettings (lines 13-17); pitch and rate are exact
decimal values, modelled as rationals. -/
structure VoiceSettings where
  selectedVoice : Nat
  pitch : ℚ
  rate : ℚ
deriving DecidableEq, Repr

/-- The localStorage key (lines 43 and 95). -/
def voiceSettingsKey : String := "captainFocusVoiceSettings"

/-- The default settings object of the state initializer (lines 44-48). -/
def defaultVoiceSettings : VoiceSettings :=
  VoiceSettings.mk 0 (11 / 10) (9 / 10)

/-- The lazy state initializer (lines 42-49): read the key, fall back to
the defaults when nothing is saved. The store maps localStorage keys to
decoded settings. -/
def loadVoiceSettings (store : String → Option VoiceSettings) : VoiceSettings :=
  match store voiceSettingsKey with
  | some saved => saved
  | none => defaultVoiceSettings

/-- The persistence effect (lines 94-96): every settings change writes
the new value under the same key, leaving other keys untouched. -/
def saveVoiceSettings (store : String → Option VoiceSettings)
    (v : VoiceSettings) : String → Option VoiceSettings :=
  fun k => if k = voiceSettingsKey then some v else store k

/-- The value installed by the Reset to Defaults button (line 441). -/
def resetVoiceSettings : VoiceSettings :=
  VoiceSettings.mk 0 (11 / 10) (9 / 10)

/-! ## Backend chat service -/

/-- Modelled from the spec: the Backend Chat Service's code is not in
the repository snapshot (only the browser client is); per the spec its
message-submission endpoint "currently emits a fixed templated string
per request" instead of calling a language model. The concrete template
below stands in for that fixed string. -/
def mockChatReply (message : String) : String :=
  "Captain Focus mock reply to: " ++ message

/-- Modelled from the spec: one request/response step of the backend
service over an arbitrary server-state type; the spec calls the service
stateless, so the step leaves the state unchanged and the reply depends
only on the request. -/
def backendChatStep {σ : Type} (st : σ) (message : String) : σ × String :=
  (st, mockChatReply message)

/-! ## Helper lemmas -/

/-- The TypeError message of the empty-list property read does not
contain `fetch`, so the catch block rethrows it unchanged. -/
theorem noFetchInUndefinedMsg : strIncludes undefinedReadRoleMsg "fetch" = false := by
  decide

/-- When the last message exists and has role `user`, the try block
issues exactly the one POST carrying only that message's content and
hands the fetch outcome to the response translation. -/
theorem sendMessageTry_user_eq (backendUrl : String) (messages : List ChatMessage)
    (m : ChatMessage) (net : FetchResult)
    (hlast : messages.getLast? = some m) (hrole : m.role = Role.user) :
    sendMessageTry backendUrl messages net =
      (some (ChatRequest.mk (backendUrl ++ "/api/chat") "POST" m.content),
        chatResponseOutcome net) := by
  simp [sendMessageTry, hlast, hrole]

/-! ## Claim theorems -/

/-- C6: checkHealth never throws: it is a total function that returns
null (`none`) when the response status is not ok or when any exception
occurs (network failure or JSON parse failure), and otherwise returns
the parsed health object. -/
theorem checkHealth_total (url : String) (net : HealthFetch) :
    checkHealth url net =
      match net with
      | HealthFetch.success true _ (Except.ok h) => some h
      | _ => none := by
  cases net with
  | typeError m => rfl
  | success ok st body => cases ok <;> cases body <;> rfl

/-- C8: the backend chat service is stateless (a request/response step
leaves any server state unchanged and the reply does not depend on it)
and every request to the message-submission endpoint yields the canned
templated mock string. -/
theorem backendChat_stateless_mock {σ : Type} (s t : σ) (message : String) :
    (backendChatStep s message).1 = s ∧
    (backendChatStep s message).2 = (backendChatStep t message).2 ∧
    (backendChatStep s message).2 = mockChatReply message :=
  ⟨rfl, rfl, rfl⟩

/-- C7: the voice settings are loaded from the `captainFocusVoiceSettings`
key, defaulting to `{selectedVoice: 0, pitch: 1.1, rate: 0.9}` when
nothing is saved; every change writes the new value back to the same key
(leaving other keys untouched) so that a reload returns it; and the
Reset to Defaults action restores exactly the default values. -/
theorem voiceSettings_persistence (store : String → Option VoiceSettings)
    (v w : VoiceSettings) :
    (store voiceSettingsKey = none →
        loadVoiceSettings store = VoiceSettings.mk 0 (11 / 10) (9 / 10))
  ∧ (store voiceSettingsKey = some w → loadVoiceSettings store = w)
  ∧ loadVoiceSettings (saveVoiceSettings store v) = v
  ∧ saveVoiceSettings store v voiceSettingsKey = some v
  ∧ (∀ k, k ≠ voiceSettingsKey → saveVoiceSettings store v k = store k)
  ∧ resetVoiceSettings = defaultVoiceSettings
  ∧ defaultVoiceSettings = VoiceSettings.mk 0 (11 / 10) (9 / 10) := by
  refine ⟨?_, ?_, ?_, ?_, ?_, rfl, rfl⟩
  · intro h; simp [loadVoiceSettings, h, defaultVoiceSettings]
  · intro h; simp [loadVoiceSettings, h]
  · simp [loadVoiceSettings, saveVoiceSettings]
  · simp [saveVoiceSettings]
  · intro k hk; simp [saveVoiceSettings, hk]

/-- C7 witness: with an empty store the initializer yields the defaults,
and a saved value is read back. -/
theorem voiceSettings_persistence_witness :
    loadVoiceSettings (fun _ => none) = VoiceSettings.mk 0 (11 / 10) (9 / 10)
  ∧ loadVoiceSettings
        (saveVoiceSettings (fun _ => none) (VoiceSettings.mk 3 1 1)) =
      VoiceSettings.mk 3 1 1 :=
  ⟨(voiceSettings_persistence (fun _ => none) (VoiceSettings.mk 3 1 1)
      defaultVoiceSettings).1 rfl,
   (voiceSettings_persistence (fun _ => none) (VoiceSettings.mk 3 1 1)
      defaultVoiceSettings).2.2.1⟩

/-- C9: for every non-empty message list whose last element has a role
other than `user`, sendMessage rejects with `Latest message must be from
user` and no HTTP request is issued; and for the empty list the
precondition check itself faults with the TypeError from reading `.role`
of an undefined element. -/
theorem sendMessage_requires_last_user (backendUrl : String)
    (messages : List ChatMessage) (m : ChatMessage) (net : FetchResult)
    (hlast : messages.getLast? = some m) (hrole : m.role ≠ Role.user) :
    sendMessage backendUrl messages net =
        (none, Except.error (JsError.error "Latest message must be from user"))
  ∧ sendMessage backendUrl [] net =
        (none, Except.error (JsError.typeError undefinedReadRoleMsg)) := by
  constructor
  · simp [sendMessage, sendMessageTry, hlast, hrole, catchWrap]
  · simp [sendMessage, sendMessageTry, catchWrap, noFetchInUndefinedMsg]

/-- C9 witness: a history ending in an assistant message is rejected
without a request, and the empty list faults on the property read. -/
theorem sendMessage_requires_last_user_witness :
    sendMessage "http://b" [ChatMessage.mk Role.assistant "a"]
        (FetchResult.typeError "z") =
      (none, Except.error (JsError.error "Latest message must be from user"))
  ∧ sendMessage "http://b" []
        (FetchResult.typeError "z") =
      (none, Except.error (JsError.typeError undefinedReadRoleMsg)) :=
  sendMessage_requires_last_user "http://b" [ChatMessage.mk Role.assistant "a"]
    (ChatMessage.mk Role.assistant "a") (FetchResult.typeError "z")
    (by decide) (by decide)

/-- C10: when the input text is empty or all whitespace, handleSendMessage
returns immediately with no effect: the state (message list, input text,
typing flag, API error) is unchanged, nothing is spoken, and no HTTP
request is made. -/
theorem handleSendMessage_blank_noop (backendUrl : String) (net : FetchResult)
    (s : ChatState) (h : jsTrim s.inputText = "") :
    handleSendMessage backendUrl net s = SendOutcome.mk s [] none := by
  simp [handleSendMessage, h]

/-- C10 witness: a whitespace-only input leaves a concrete state
untouched and issues no request. -/
theorem handleSendMessage_blank_noop_witness :
    handleSendMessage "http://b" (FetchResult.typeError "z")
        (ChatState.mk [] " \t " false (some "old")) =
      SendOutcome.mk (ChatState.mk [] " \t " false (some "old")) [] none :=
  handleSendMessage_blank_noop "http://b" (FetchResult.typeError "z")
    (ChatState.mk [] " \t " false (some "old")) (by decide)

/-- C3: the constructor resolves the backend base URL by environment: in
a browser with hostname `localhost` or `127.0.0.1` it is
`http://localhost:3001`; in a browser with any other hostname it is
VITE_BACKEND_URL when set (to a non-empty value), otherwise the current
protocol followed by `//captain-focus-backend.onrender.com`; outside a
browser it is VITE_BACKEND_URL when set, otherwise
`http://localhost:3001`. -/
theorem backendUrl_resolution (w : BrowserWindow) (env : Option String) :
    ((w.hostname = "localhost" ∨ w.hostname = "127.0.0.1") →
        resolveBackendUrl (some w) env = "http://localhost:3001")
  ∧ (w.hostname ≠ "localhost" → w.hostname ≠ "127.0.0.1" →
        ((∀ u, env = some u → u ≠ "" → resolveBackendUrl (some w) env = u)
      ∧ ((env = none ∨ env = some "") →
          resolveBackendUrl (some w) env =
            w.protocol ++ "//captain-focus-backend.onrender.com")))
  ∧ (∀ u, env = some u → u ≠ "" → resolveBackendUrl none env = u)
  ∧ ((env = none ∨ env = some "") →
        resolveBackendUrl none env = "http://localhost:3001") := by
  refine ⟨?_, ?_, ?_, ?_⟩
  · intro h
    simp [resolveBackendUrl, h]
  · intro h1 h2
    constructor
    · rintro u rfl hu
      simp [resolveBackendUrl, h1, h2, jsOr, hu]
    · rintro (rfl | rfl) <;> simp [resolveBackendUrl, h1, h2, jsOr]
  · rintro u rfl hu
    simp [resolveBackendUrl, jsOr, hu]
  · rintro (rfl | rfl) <;> simp [resolveBackendUrl, jsOr]

/-- C3 witness: a localhost browser, a production browser without the
environment variable, and a non-browser context all resolve as stated. -/
theorem backendUrl_resolution_witness :
    resolveBackendUrl (some (BrowserWindow.mk "localhost" "http:"))
        (some "http://x") = "http://localhost:3001"
  ∧ resolveBackendUrl (some (BrowserWindow.mk "captain-focus.app" "https:"))
        none = "https:" ++ "//captain-focus-backend.onrender.com"
  ∧ resolveBackendUrl none none = "http://localhost:3001" :=
  ⟨(backendUrl_resolution (BrowserWindow.mk "localhost" "http:")
      (some "http://x")).1 (Or.inl rfl),
   ((backendUrl_resolution (BrowserWindow.mk "captain-focus.app" "https:")
      none).2.1 (by decide) (by decide)).2 (Or.inl rfl),
   (backendUrl_resolution (BrowserWindow.mk "x" "http:") none).2.2.2
     (Or.inl rfl)⟩

/-- C1: for every non-empty message list whose last element has role
`user`, sendMessage issues exactly one POST to `backendUrl ++ "/api/chat"`
whose body carries only that last message's content (the earlier history
and the system prompt never reach the request); on a successful response
it resolves with the backend's `response` field; and the controller then
appends that text as a captain message after the user's message. -/
theorem sendMessage_posts_only_last_user_content
    (backendUrl : String) (messages : List ChatMessage) (m : ChatMessage)
    (net : FetchResult)
    (hlast : messages.getLast? = some m) (hrole : m.role = Role.user) :
    (sendMessage backendUrl messages net).1 =
        some (ChatRequest.mk (backendUrl ++ "/api/chat") "POST" m.content)
  ∧ (∀ resp data r, net = FetchResult.success resp → resp.ok = true →
        resp.body = Except.ok data → data.response = some r → r ≠ "" →
        (sendMessage backendUrl messages net).2 = Except.ok r)
  ∧ (∀ s r, jsTrim s.inputText ≠ "" →
        (sendMessage backendUrl (apiMessagesOf s) net).2 = Except.ok r →
        (handleSendMessage backendUrl net s).state.messages =
          s.messages ++ [Message.mk s.inputText Sender.user none,
            Message.mk r Sender.captain (some (detectMood s.inputText))]) := by
  refine ⟨?_, ?_, ?_⟩
  · simp [sendMessage, sendMessageTry_user_eq backendUrl messages m net hlast hrole]
  · rintro resp data r rfl hok hbody hresp hr
    simp [sendMessage, sendMessageTry_user_eq backendUrl messages m _ hlast hrole,
      chatResponseOutcome, hok, hbody, hresp, hr, catchWrap]
  · intro s r htrim hok
    simp [handleSendMessage, htrim, hok]

/-- C1 witness: a two-message history ending in a user message issues the
single POST with only that content and resolves with the reply, which the
controller appends as a captain message. -/
theorem sendMessage_posts_only_last_user_content_witness :
    (sendMessage "http://b"
        [ChatMessage.mk Role.system "sys", ChatMessage.mk Role.user "hi"]
        (FetchResult.success (HttpResponse.mk true 200 "OK"
          (Except.ok (ChatJson.mk none (some "yo")))))).1 =
      some (ChatRequest.mk ("http://b" ++ "/api/chat") "POST" "hi")
  ∧ (sendMessage "http://b"
        [ChatMessage.mk Role.system "sys", ChatMessage.mk Role.user "hi"]
        (FetchResult.success (HttpResponse.mk true 200 "OK"
          (Except.ok (ChatJson.mk none (some "yo")))))).2 = Except.ok "yo" := by
  have h := sendMessage_posts_only_last_user_content "http://b"
    [ChatMessage.mk Role.system "sys", ChatMessage.mk Role.user "hi"]
    (ChatMessage.mk Role.user "hi")
    (FetchResult.success (HttpResponse.mk true 200 "OK"
      (Except.ok (ChatJson.mk none (some "yo")))))
    (by decide) (by decide)
  exact ⟨h.1, h.2.1 (HttpResponse.mk true 200 "OK"
      (Except.ok (ChatJson.mk none (some "yo"))))
    (ChatJson.mk none (some "yo")) "yo" rfl rfl rfl rfl (by decide)⟩

/-- C2: sendMessage translates every failure into a typed error: HTTP 404
becomes the backend-not-found Error, HTTP 500 becomes `Server error:`
followed by the detail, any other non-ok status becomes
`Backend request failed:` followed by the detail, a fetch TypeError whose
message contains `fetch` becomes the cannot-connect Error, and an ok
response with a missing or empty `response` field becomes the
invalid-response Error; in each case the result is an error, never a
successful resolution. -/
theorem sendMessage_translates_failures
    (backendUrl : String) (messages : List ChatMessage) (m : ChatMessage)
    (net : FetchResult)
    (hlast : messages.getLast? = some m) (hrole : m.role = Role.user) :
    (∀ resp, net = FetchResult.success resp → resp.ok = false →
        resp.status = 404 →
        (sendMessage backendUrl messages net).2 = Except.error (JsError.error
          "Backend service not found. Please check if the server is running."))
  ∧ (∀ resp, net = FetchResult.success resp → resp.ok = false →
        resp.status = 500 →
        (sendMessage backendUrl messages net).2 = Except.error (JsError.error
          ("Server error: " ++ httpErrorDetail resp)))
  ∧ (∀ resp, net = FetchResult.success resp → resp.ok = false →
        resp.status ≠ 404 → resp.status ≠ 500 →
        (sendMessage backendUrl messages net).2 = Except.error (JsError.error
          ("Backend request failed: " ++ httpErrorDetail resp)))
  ∧ (∀ em, net = FetchResult.typeError em → strIncludes em "fetch" = true →
        (sendMessage backendUrl messages net).2 = Except.error (JsError.error
          "Cannot connect to backend server. Please ensure the backend service is running."))
  ∧ (∀ resp data, net = FetchResult.success resp → resp.ok = true →
        resp.body = Except.ok data →
        (data.response = none ∨ data.response = some "") →
        (sendMessage backendUrl messages net).2 = Except.error (JsError.error
          "Invalid response from backend: missing response text")) := by
  refine ⟨?_, ?_, ?_, ?_, ?_⟩
  · rintro resp rfl hok h404
    simp [sendMessage, sendMessageTry_user_eq backendUrl messages m _ hlast hrole,
      chatResponseOutcome, hok, h404, catchWrap]
  · rintro resp rfl hok h500
    simp [sendMessage, sendMessageTry_user_eq backendUrl messages m _ hlast hrole,
      chatResponseOutcome, hok, h500, catchWrap]
  · rintro resp rfl hok h404 h500
    simp [sendMessage, sendMessageTry_user_eq backendUrl messages m _ hlast hrole,
      chatResponseOutcome, hok, h404, h500, catchWrap]
  · rintro em rfl hfetch
    simp [sendMessage, sendMessageTry_user_eq backendUrl messages m _ hlast hrole,
      chatResponseOutcome, catchWrap, hfetch]
  · rintro resp data rfl hok hbody hresp
    rcases hresp with h | h <;>
      simp [sendMessage, sendMessageTry_user_eq backendUrl messages m _ hlast hrole,
        chatResponseOutcome, hok, hbody, h, catchWrap]

/-- C2 witness: a 404 response and a fetch TypeError both reject with
their typed errors. -/
theorem sendMessage_translates_failures_witness :
    (sendMessage "http://b" [ChatMessage.mk Role.user "hi"]
        (FetchResult.success (HttpResponse.mk false 404 "Not Found"
          (Except.error "parse")))).2 =
      Except.error (JsError.error
        "Backend service not found. Please check if the server is running.")
  ∧ (sendMessage "http://b" [ChatMessage.mk Role.user "hi"]
        (FetchResult.typeError "Failed to fetch")).2 =
      Except.error (JsError.error
        "Cannot connect to backend server. Please ensure the backend service is running.") :=
  ⟨(sendMessage_translates_failures "http://b" [ChatMessage.mk Role.user "hi"]
      (ChatMessage.mk Role.user "hi")
      (FetchResult.success (HttpResponse.mk false 404 "Not Found"
        (Except.error "parse"))) (by decide) (by decide)).1
    (HttpResponse.mk false 404 "Not Found" (Except.error "parse")) rfl rfl rfl,
   (sendMessage_translates_failures "http://b" [ChatMessage.mk Role.user "hi"]
      (ChatMessage.mk Role.user "hi")
      (FetchResult.typeError "Failed to fetch") (by decide) (by decide)).2.2.2.1
    "Failed to fetch" rfl (by decide)⟩

/-- C4: when sendMessage rejects, handleSendMessage falls back: the user
message appended before the request stays in the list, the error's
message is stored as the API error, the typing flag is cleared, and the
canned fallback captain message with mood neutral is appended and spoken;
the function is total, so no exception reaches the caller. -/
theorem handleSendMessage_fallback_on_error
    (backendUrl : String) (net : FetchResult) (s : ChatState) (e : JsError)
    (hin : jsTrim s.inputText ≠ "")
    (herr : (sendMessage backendUrl (apiMessagesOf s) net).2 = Except.error e) :
    (handleSendMessage backendUrl net s).state.messages =
        s.messages ++ [Message.mk s.inputText Sender.user none,
          Message.mk fallbackResponse Sender.captain (some Mood.neutral)]
  ∧ (handleSendMessage backendUrl net s).state.apiError =
        some (jsErrorMessage e)
  ∧ (handleSendMessage backendUrl net s).state.isTyping = false
  ∧ (handleSendMessage backendUrl net s).spoken = [fallbackResponse] := by
  refine ⟨?_, ?_, ?_, ?_⟩ <;> simp [handleSendMessage, hin, herr]

/-- C4 witness: with the backend unreachable, a concrete send keeps the
user message, records the connection error, clears typing, and appends
and speaks the fallback captain message. -/
theorem handleSendMessage_fallback_on_error_witness :
    (handleSendMessage "http://b" (FetchResult.typeError "Failed to fetch")
        (ChatState.mk [] "hello" false none)).state.messages =
      [Message.mk "hello" Sender.user none,
        Message.mk fallbackResponse Sender.captain (some Mood.neutral)]
  ∧ (handleSendMessage "http://b" (FetchResult.typeError "Failed to fetch")
        (ChatState.mk [] "hello" false none)).state.apiError =
      some (jsErrorMessage (JsError.error
        "Cannot connect to backend server. Please ensure the backend service is running.")) := by
  have h := handleSendMessage_fallback_on_error "http://b"
    (FetchResult.typeError "Failed to fetch")
    (ChatState.mk [] "hello" false none)
    (JsError.error
      "Cannot connect to backend server. Please ensure the backend service is running.")
    (by decide) (by decide)
  exact ⟨h.1, h.2.1⟩

/-- C5: detectMood maps every string to exactly one of the four labels
by case-insensitive keyword matching with fixed priority (tired before
confused before happy, else neutral); and on a successful send the mood
attached to the captain's reply is detected from the user's input text,
not from the reply text. -/
theorem detectMood_classification (text : String) :
    (detectMood text = Mood.tired ↔
        matchesAnyKeyword text tiredKeywords = true)
  ∧ (detectMood text = Mood.confused ↔
        (matchesAnyKeyword text tiredKeywords = false ∧
         matchesAnyKeyword text confusedKeywords = true))
  ∧ (detectMood text = Mood.happy ↔
        (matchesAnyKeyword text tiredKeywords = false ∧
         matchesAnyKeyword text confusedKeywords = false ∧
         matchesAnyKeyword text happyKeywords = true))
  ∧ (detectMood text = Mood.neutral ↔
        (matchesAnyKeyword text tiredKeywords = false ∧
         matchesAnyKeyword text confusedKeywords = false ∧
         matchesAnyKeyword text happyKeywords = false))
  ∧ (∀ backendUrl net s r, jsTrim s.inputText ≠ "" →
        (sendMessage backendUrl (apiMessagesOf s) net).2 = Except.ok r →
        (handleSendMessage backendUrl net s).state.messages.getLast? =
          some (Message.mk r Sender.captain (some (detectMood s.inputText)))) := by
  have hctrl : ∀ (backendUrl : String) (net : FetchResult) (s : ChatState)
      (r : String), jsTrim s.inputText ≠ "" →
      (sendMessage backendUrl (apiMessagesOf s) net).2 = Except.ok r →
      (handleSendMessage backendUrl net s).state.messages.getLast? =
        some (Message.mk r Sender.captain (some (detectMood s.inputText))) := by
    intro backendUrl net s r htrim hok
    simp [handleSendMessage, htrim, hok]
  refine ⟨?_, ?_, ?_, ?_, hctrl⟩
  all_goals
    rcases h1 : matchesAnyKeyword text tiredKeywords with _ | _ <;>
    rcases h2 : matchesAnyKeyword text confusedKeywords with _ | _ <;>
    rcases h3 : matchesAnyKeyword text happyKeywords with _ | _ <;>
      simp [detectMood, h1, h2, h3]

/-- C5 witness: concrete inputs hit each label with the stated priority,
and the mood on the captain's reply comes from the user's text. -/
theorem detectMood_classification_witness :
    detectMood "so TIRED and confused" = Mood.tired
  ∧ detectMood "this is hard, thanks" = Mood.confused
  ∧ detectMood "thanks a lot" = Mood.happy
  ∧ detectMood "ok" = Mood.neutral
  ∧ (handleSendMessage "http://b"
        (FetchResult.success (HttpResponse.mk true 200 "OK"
          (Except.ok (ChatJson.mk none (some "reply")))))
        (ChatState.mk [] "thanks a lot" false none)).state.messages.getLast? =
      some (Message.mk "reply" Sender.captain
        (some (detectMood "thanks a lot"))) :=
  ⟨(detectMood_classification "so TIRED and confused").1.mpr (by decide),
   (detectMood_classification "this is hard, thanks").2.1.mpr (by decide),
   (detectMood_classification "thanks a lot").2.2.1.mpr (by decide),
   (detectMood_classification "ok").2.2.2.1.mpr (by decide),
   (detectMood_classification "thanks a lot").2.2.2.2 "http://b"
     (FetchResult.success (HttpResponse.mk true 200 "OK"
       (Except.ok (ChatJson.mk none (some "reply")))))
     (ChatState.mk [] "thanks a lot" false none) "reply"
     (by decide) (by decide)⟩

end CaptainFocus
